import Mathlib

/-!
Shallow embedding of `lib/debug/ProfilingPlugin.js`.

The JavaScript source instruments an arbitrary set of named, typed hooks
with matched begin/end trace events, runs an optional CPU sampling
profiler alongside, and merges the profiler output into the trace log at
finalization.  The embedding below follows the source function by
function:

* `Tracer` models the `{trace, counter, profiler}` record returned by
  `createTrace` (the `trace` object's append-only event log and the
  wall clock used to stamp events are made explicit; the profiler is
  modelled separately).  `Tracer.allocId` models `++tracer.counter`.
* `createTrace` models `createTrace()` (lines 64-109): counter starts at
  0 and the two bootstrap instant events take ids 1 and 2.
* `Profiler`, `Profiler.sendCommand`, `Profiler.startProfiling`,
  `Profiler.stopProfiling` model the `Profiler` class (lines 11-56).
  The host environment (is the `inspector` module present, and what does
  `session.post` answer) is a `Host` parameter; a rejected promise is
  `Except.error ()` (the source rejects with `null`).
* `makeNewProfiledTapFn` models the `switch(type)` dispatch
  (lines 285-357); the bodies of the three returned closures are
  modelled by `runSyncTap`, `runPromiseTap`, `runAsyncTapInvoke` /
  `runAsyncReplacement`.  The `default:` branch of the switch falls
  through and the JS function returns `undefined`, modelled as `none`.
* `register` models the `register` member produced by
  `makeInterceptorFor` (lines 260-277).
* `doneFinalize` models the body of the `"done"` handler after the
  `sleep(2000)` delay (lines 141-193): `stopProfiling().then(...)` with
  no rejection handler, the null check, the three merge events and the
  `destroy()` / `flush()` calls (counted in `FinalizeResult`).
-/

/-- The `{startTime, endTime}` part of a V8 CPU profile, the only fields the
plugin reads (`parsedResults.profile.startTime` / `.endTime`); the record as a
whole stands for the full profile payload placed into the `CpuProfile` event's
`args`. -/
structure CpuProfile where
  startTime : Int
  endTime : Int
deriving DecidableEq

/-- The value `Profiler.stop` resolves with: `{ profile: ... }`. -/
structure ParsedResults where
  profile : CpuProfile
deriving DecidableEq

/-- Trace-event phase codes as used by the `trace-event` library:
`I` = instant, `b` = async begin, `e` = async end, `X` = complete. -/
inductive Phase where
  | I
  | b
  | e
  | X
deriving DecidableEq, BEq

/-- The `args` payloads that occur in the source, one constructor per literal
object: the two bootstrap events' `data` (sessionId plus optional page),
the `src_file`/`src_func` record of the `TaskQueueManager` complete event,
the `data` record of the `EvaluateScript` complete event, and the
`data.cpuProfile` payload of the final instant event. -/
inductive EvArgs where
  | empty
  | sessionData (sessionId : String) (page : Option String)
  | srcLocation (src_file : String) (src_func : String)
  | scriptData (url : String) (lineNumber : Nat) (columnNumber : Nat) (frame : String)
  | cpuProfile (profile : CpuProfile)
deriving DecidableEq, BEq

/-- One record of the trace-event log.  `ts` is the event timestamp (stamped
from the tracer clock by `begin`/`end`/bootstrap `instantEvent`, caller
supplied for the merge events); `dur` is present only on the `EvaluateScript`
complete event. -/
structure TraceEvent where
  name : String
  id : Nat
  cat : List String
  ph : Phase
  ts : Int
  dur : Option Int
  args : EvArgs
deriving DecidableEq, BEq

/-- The tracer record returned by `createTrace` (lines 104-108): the shared
id counter, the trace object's event log (append-only) and the wall clock the
trace library stamps events with.  The single-threaded model advances the
clock only at suspension points (`Tracer.tick`). -/
structure Tracer where
  counter : Nat
  clock : Int
  log : List TraceEvent
deriving DecidableEq

/-- Append one event to the log (the trace library serializes events in
emission order; the log is append-only). -/
def Tracer.emit (t : Tracer) (ev : TraceEvent) : Tracer :=
  { t with log := t.log ++ [ev] }

/-- `++tracer.counter`: increment the shared counter and return the fresh id. -/
def Tracer.allocId (t : Tracer) : Nat × Tracer :=
  (t.counter + 1, { t with counter := t.counter + 1 })

/-- Advance the wall clock by `d` at a suspension point (time never goes
backwards in the single-threaded model). -/
def Tracer.tick (t : Tracer) (d : Nat) : Tracer :=
  { t with clock := t.clock + (d : Int) }

/-- `const defaultCategory = ["blink.user_timing"]` (line 290). -/
def defaultCategory : List String := ["blink.user_timing"]

/-- `tracer.trace.begin({name, id, cat: defaultCategory})`: an async-begin
event stamped with the current clock. -/
def traceBegin (t : Tracer) (name : String) (id : Nat) : Tracer :=
  t.emit { name := name, id := id, cat := defaultCategory, ph := .b,
           ts := t.clock, dur := none, args := .empty }

/-- `tracer.trace.end({name, id, cat: defaultCategory})`: an async-end event
stamped with the current clock, reusing the begin's id. -/
def traceEnd (t : Tracer) (name : String) (id : Nat) : Tracer :=
  t.emit { name := name, id := id, cat := defaultCategory, ph := .e,
           ts := t.clock, dur := none, args := .empty }

/-- `createTrace()` (lines 64-109): counter starts at 0, then the two
bootstrap instant events `TracingStartedInPage` and `TracingStartedInBrowser`
are emitted with ids `++counter` = 1 and 2. -/
def createTrace : Tracer :=
  let t0 : Tracer := { counter := 0, clock := 0, log := [] }
  let p1 := t0.allocId
  let t1 := p1.2.emit
    { name := "TracingStartedInPage", id := p1.1,
      cat := ["disabled-by-default-devtools.timeline"], ph := .I,
      ts := p1.2.clock, dur := none,
      args := .sessionData "-1" (some "0xfff") }
  let p2 := t1.allocId
  p2.2.emit
    { name := "TracingStartedInBrowser", id := p2.1,
      cat := ["disabled-by-default-devtools.timeline"], ph := .I,
      ts := p2.2.clock, dur := none,
      args := .sessionData "-1" none }

/-- The host environment: whether `require("inspector")` succeeded, and how
`session.post(method, ...)` answers each method (`Except.error ()` models the
post callback reporting an error, upon which `sendCommand` rejects; `Except.ok`
carries the `params` the command resolves with). -/
structure Host where
  inspectorAvailable : Bool
  post : String → Except Unit (Option ParsedResults)

/-- The `Profiler` class state: `this.session`, set by `startProfiling` when
the inspector is available. -/
structure Profiler where
  session : Option Unit
deriving DecidableEq

/-- `sendCommand(method, params)` (lines 29-43): with a session, resolve or
reject according to the `post` callback; with no session, resolve with
`undefined` (here `Except.ok none`). -/
def Profiler.sendCommand (p : Profiler) (host : Host) (method : String) :
    Except Unit (Option ParsedResults) :=
  match p.session with
  | some _ => host.post method
  | none => Except.ok none

/-- Is a promise-modelling `Except` fulfilled? -/
def exceptOk {α : Type} (r : Except Unit α) : Bool :=
  match r with
  | .ok _ => true
  | .error _ => false

/-- `startProfiling()` (lines 12-27): if the inspector module is present,
connect a session and `Promise.all` the three setup commands (rejecting if any
rejects); otherwise return `Promise.resolve()` without creating a session. -/
def Profiler.startProfiling (host : Host) : Profiler × Except Unit Unit :=
  if host.inspectorAvailable then
    let p : Profiler := { session := some () }
    let r1 := p.sendCommand host "Profiler.setSamplingInterval"
    let r2 := p.sendCommand host "Profiler.enable"
    let r3 := p.sendCommand host "Profiler.start"
    (p, if exceptOk r1 && exceptOk r2 && exceptOk r3 then .ok () else .error ())
  else
    ({ session := none }, .ok ())

/-- `stopProfiling()` (lines 53-55): `sendCommand("Profiler.stop")`. -/
def Profiler.stopProfiling (p : Profiler) (host : Host) :
    Except Unit (Option ParsedResults) :=
  p.sendCommand host "Profiler.stop"

/-- Outcome of the `"done"` handler body: the tracer afterwards, and how many
times `profiler.destroy()` and `trace.flush()` ran. -/
structure FinalizeResult where
  tracer : Tracer
  destroyCalls : Nat
  flushCalls : Nat
deriving DecidableEq

/-- The body of the `"done"` handler after the drain delay (lines 141-193):
`stopProfiling().then(parsedResults => ...)` with no rejection handler (on a
rejected stop nothing below runs), the `parsedResults == null` early return
(destroy, flush), and otherwise the three merge events — the `toplevel`
container complete event at `cpuStartTime`, the `EvaluateScript` complete
event spanning `cpuEndTime - cpuStartTime`, and the `CpuProfile` instant
event at `cpuEndTime` carrying the whole profile — followed by destroy and
flush. -/
def doneFinalize (t : Tracer) (host : Host) (p : Profiler) : FinalizeResult :=
  match p.stopProfiling host with
  | .error _ => { tracer := t, destroyCalls := 0, flushCalls := 0 }
  | .ok none => { tracer := t, destroyCalls := 1, flushCalls := 1 }
  | .ok (some parsedResults) =>
    let cpuStartTime := parsedResults.profile.startTime
    let cpuEndTime := parsedResults.profile.endTime
    let q1 := t.allocId
    let t1 := q1.2.emit
      { name := "TaskQueueManager::ProcessTaskFromWorkQueue", id := q1.1,
        cat := ["toplevel"], ph := .X, ts := cpuStartTime, dur := none,
        args := .srcLocation "../../ipc/ipc_moji_bootstrap.cc" "Accept" }
    let q2 := t1.allocId
    let t2 := q2.2.emit
      { name := "EvaluateScript", id := q2.1,
        cat := ["devtools.timeline"], ph := .X, ts := cpuStartTime,
        dur := some (cpuEndTime - cpuStartTime),
        args := .scriptData "webpack" 1 1 "0xFFF" }
    let q3 := t2.allocId
    let t3 := q3.2.emit
      { name := "CpuProfile", id := q3.1,
        cat := ["disabled-by-default-devtools.timeline"], ph := .I,
        ts := cpuEndTime, dur := none,
        args := .cpuProfile parsedResults.profile }
    { tracer := t3, destroyCalls := 1, flushCalls := 1 }

/-- A tap descriptor `{name, type, fn}` as passed to `register`; `F` is the
type standing for the registered callable (JS is untyped, the wrapper replaces
the callable by a value of a different shape). -/
structure Tap (F : Type) where
  name : String
  type : String
  fn : F
deriving DecidableEq

/-- Defunctionalized result of `makeNewProfiledTapFn`: which of the three
closures was produced, with the captured `hookName`, tap `name` and original
callable.  The behaviour of the closures themselves is given by
`runPromiseTap`, `runAsyncTapInvoke`/`runAsyncReplacement` and `runSyncTap`. -/
inductive ProfiledTapFn (F : Type) where
  | promiseTap (hookName : String) (name : String) (fn : F)
  | asyncTap (hookName : String) (name : String) (fn : F)
  | syncTap (hookName : String) (name : String) (fn : F)
deriving DecidableEq

/-- `makeNewProfiledTapFn` (lines 285-357): dispatch on the `type` string.
The three recognized tags yield the corresponding closure; the `default:`
branch just breaks, so the JS function returns `undefined` — modelled as
`none`. -/
def makeNewProfiledTapFn {F : Type} (hookName : String) (tap : Tap F) :
    Option (ProfiledTapFn F) :=
  if tap.type = "promise" then some (.promiseTap hookName tap.name tap.fn)
  else if tap.type = "async" then some (.asyncTap hookName tap.name tap.fn)
  else if tap.type = "sync" then some (.syncTap hookName tap.name tap.fn)
  else none

/-- The `register` member returned by `makeInterceptorFor(instance, tracer)`
for a hook (lines 260-277): keep `name` and `type`, replace `fn` by
`makeNewProfiledTapFn`'s result (which is `undefined`, i.e. `none`, for an
unrecognized `type`). -/
def register {F : Type} (hookName : String) (tap : Tap F) :
    Tap (Option (ProfiledTapFn F)) :=
  { name := tap.name, type := tap.type, fn := makeNewProfiledTapFn hookName tap }

/-- Body of the `"sync"` closure (lines 328-353): allocate an id, emit
`begin`, call `fn`; if it throws, emit `end` and rethrow the same error
object; otherwise emit `end` and return the value unchanged.  The callable is
`fn : α → Except ε ρ` — `Except.error` is a throw, and the polymorphic error
type makes "same error object" literal. -/
def runSyncTap {α ε ρ : Type} (name : String) (fn : α → Except ε ρ)
    (callArgs : α) (t : Tracer) : Except ε ρ × Tracer :=
  let q := t.allocId
  let t1 := traceBegin q.2 name q.1
  match fn callArgs with
  | .error error => (.error error, traceEnd t1 name q.1)
  | .ok r => (.ok r, traceEnd t1 name q.1)

/-- A promise-returning callable: it settles after `delay` microseconds with
`result` (`Except.error` is a rejection). -/
structure PromiseFn (ε ρ : Type) where
  delay : Nat
  result : Except ε ρ

/-- Body of the `"promise"` closure (lines 293-309): allocate an id, emit
`begin`, call `fn(...)` and attach `.then(r => { end; return r })`.  There is
no rejection handler in the source, so on rejection the `end` event is never
emitted and the rejection propagates unchanged. -/
def runPromiseTap {ε ρ : Type} (name : String) (fn : PromiseFn ε ρ)
    (t : Tracer) : Except ε ρ × Tracer :=
  let q := t.allocId
  let t1 := traceBegin q.2 name q.1
  let t2 := t1.tick fn.delay
  match fn.result with
  | .ok r => (.ok r, traceEnd t2 name q.1)
  | .error error => (.error error, t2)

/-- One argument of the spread call `fn(...args, replacementCb)` in the
`"async"` closure: either one of the original arguments (the original trailing
callback among them) or the wrapper-created replacement callback appended at
the tail. -/
inductive CallArg (α : Type) where
  | orig (a : α)
  | replacementCb
deriving DecidableEq

/-- Invocation phase of the `"async"` closure (lines 311-318): allocate an id,
emit `begin`, and call the underlying `fn` with all original arguments spread
followed by the replacement callback.  Returns the allocated id and the
argument list `fn` receives. -/
def runAsyncTapInvoke {α : Type} (name : String) (callArgs : List α)
    (t : Tracer) : (Nat × List (CallArg α)) × Tracer :=
  let q := t.allocId
  let t1 := traceBegin q.2 name q.1
  ((q.1, callArgs.map CallArg.orig ++ [CallArg.replacementCb]), t1)

/-- Completion phase of the `"async"` closure (lines 318-326), run when the
replacement callback fires with results `r`: `const callback = args.pop()`
(the last of the captured original arguments), emit `end` with the invocation
id, then call `callback(...r)`.  Returns the invoked callback and the exact
argument list it receives. -/
def runAsyncReplacement {α β : Type} (name : String) (id : Nat)
    (callArgs : List α) (r : List β) (t : Tracer) :
    (Option α × List β) × Tracer :=
  let callback := callArgs.getLast?
  let t1 := traceEnd t name id
  ((callback, r), t1)

/-- Does this event draw a fresh id from the shared counter when emitted?
In the source every emission except `trace.end` is of the form
`id: ++tracer.counter` (bootstrap instants, hook begins, the three merge
events); `trace.end` reuses the id its begin allocated. -/
def isAllocEvent (ev : TraceEvent) : Bool :=
  match ev.ph with
  | .e => false
  | _ => true

/-- The ids of the counter-allocating events of a log, in log order. -/
def allocIdsOf (log : List TraceEvent) : List Nat :=
  (log.filter isAllocEvent).map TraceEvent.id

/-- One atomic step of the single-threaded run, as interleaved by the
cooperative scheduler: a wrapped tap invocation reaching its
`id = ++tracer.counter; trace.begin(...)` prefix (identical in all three
calling conventions), the end emission of the `k`-th begun invocation (which
reuses that invocation's id — sync ends immediately, async/promise ends after
interleaving), a counter-allocating instant/complete emission (the finalize
merge events), or the wall clock advancing at a suspension point. -/
inductive SchedStep where
  | beginHook (name : String)
  | endHook (name : String) (k : Nat)
  | allocInstant (name : String)
  | tick (d : Nat)

/-- State of a run: the shared tracer and the ids of the begun invocations in
begin order (each in-flight operation remembers the id its begin allocated). -/
structure SchedState where
  tracer : Tracer
  pendingIds : List Nat

/-- Execute one scheduler step against the shared tracer. -/
def schedStep (s : SchedState) (st : SchedStep) : SchedState :=
  match st with
  | .beginHook name =>
    let q := s.tracer.allocId
    { tracer := traceBegin q.2 name q.1, pendingIds := s.pendingIds ++ [q.1] }
  | .endHook name k =>
    { s with tracer := traceEnd s.tracer name (s.pendingIds.getD k 0) }
  | .allocInstant name =>
    let q := s.tracer.allocId
    { s with
      tracer := q.2.emit
        { name := name, id := q.1, cat := [], ph := .I, ts := q.2.clock,
          dur := none, args := .empty } }
  | .tick d => { s with tracer := s.tracer.tick d }

/-- Run a whole schedule of interleaved steps. -/
def runSched (steps : List SchedStep) (s : SchedState) : SchedState :=
  steps.foldl schedStep s

/-- Run invariant: the allocating events' ids are strictly increasing in log
order and never exceed the shared counter. -/
def SchedInv (s : SchedState) : Prop :=
  List.Pairwise (· < ·) (allocIdsOf s.tracer.log) ∧
  ∀ i ∈ allocIdsOf s.tracer.log, i ≤ s.tracer.counter

/-- Claim C1: for every synchronous hook, the wrapped callable returns exactly
the value the underlying callable returns and rethrows exactly the error
object it throws (the first conjunct equates the whole `Except` outcome), and
it emits exactly one begin and one end event per invocation, both carrying the
same freshly allocated id `t.counter + 1`, with the end emitted even on the
throwing path (the log equation holds unconditionally, on both branches of
`fn`). -/
theorem sync_tap_transparent {α ε ρ : Type} (name : String) (fn : α → Except ε ρ)
    (callArgs : α) (t : Tracer) :
    (runSyncTap name fn callArgs t).1 = fn callArgs ∧
    (runSyncTap name fn callArgs t).2.log =
      t.log ++
        [{ name := name, id := t.counter + 1, cat := defaultCategory, ph := .b,
           ts := t.clock, dur := none, args := .empty },
         { name := name, id := t.counter + 1, cat := defaultCategory, ph := .e,
           ts := t.clock, dur := none, args := .empty }] ∧
    (runSyncTap name fn callArgs t).2.counter = t.counter + 1 := by
  cases h : fn callArgs <;>
    simp [runSyncTap, traceBegin, traceEnd, Tracer.emit, Tracer.allocId, h]

/-- Claim C2: for every callback-style (async) hook, the wrapped callable
invokes the underlying callable with all original arguments (the original
trailing callback `cb` among them) plus one replacement trailing callback,
and when that replacement fires with results `r`, the invoked callback is the
original trailing callback (`args.pop()`, the last original argument) and it
receives exactly the argument list `r` — same count and order — that the
underlying callable handed to its completion callback. -/
theorem async_tap_forwarding {α β : Type} (name : String) (base : List α)
    (cb : α) (r : List β) (id : Nat) (t u : Tracer) :
    (runAsyncTapInvoke name (base ++ [cb]) t).1.2 =
      (base ++ [cb]).map CallArg.orig ++ [CallArg.replacementCb] ∧
    (runAsyncReplacement name id (base ++ [cb]) r u).1 = (some cb, r) := by
  refine ⟨rfl, ?_⟩
  simp [runAsyncReplacement]

/-- Claim C9: for every promise hook whose underlying callable resolves with
`r` (after any delay `d`), the wrapped callable's outcome resolves with the
same `r`, and the end event's timestamp `t.clock + d` is greater than or
equal to the begin event's timestamp `t.clock`. -/
theorem promise_tap_resolution {ε ρ : Type} (name : String) (d : Nat) (r : ρ)
    (t : Tracer) :
    (runPromiseTap name (⟨d, Except.ok r⟩ : PromiseFn ε ρ) t).1 = Except.ok r ∧
    (runPromiseTap name (⟨d, Except.ok r⟩ : PromiseFn ε ρ) t).2.log =
      t.log ++
        [{ name := name, id := t.counter + 1, cat := defaultCategory, ph := .b,
           ts := t.clock, dur := none, args := .empty },
         { name := name, id := t.counter + 1, cat := defaultCategory, ph := .e,
           ts := t.clock + (d : Int), dur := none, args := .empty }] ∧
    t.clock ≤ t.clock + (d : Int) := by
  refine ⟨rfl, ?_, by omega⟩
  simp [runPromiseTap, traceBegin, traceEnd, Tracer.emit, Tracer.allocId,
    Tracer.tick]

/-- Claim C3 counterexample: a promise hook that rejects with `"E"` leaves the
caller with the same rejection, but the log does NOT contain a matched
begin/end pair for the invocation's id: the begin with id 3 is in the log and
no end event at all was emitted (the source attaches no rejection handler to
`fn(...args).then(...)`). -/
theorem promise_tap_rejection_counterexample :
    (runPromiseTap "h" (⟨5, Except.error "E"⟩ : PromiseFn String Nat) createTrace).1 =
      Except.error "E" ∧
    ((runPromiseTap "h" (⟨5, Except.error "E"⟩ : PromiseFn String Nat) createTrace).2.log.countP
      (fun ev => ev.ph == Phase.b && ev.id == 3)) = 1 ∧
    ((runPromiseTap "h" (⟨5, Except.error "E"⟩ : PromiseFn String Nat) createTrace).2.log.countP
      (fun ev => ev.ph == Phase.e)) = 0 :=
  ⟨rfl, by decide, by decide⟩

/-- Claim C3 amended: for every promise hook whose underlying callable rejects
with error `e`, the caller of the wrapped callable observes a rejection with
the same error `e` unchanged, and the trace log contains the begin event for
the invocation's freshly allocated id but no matching end event — the begin is
left unpaired on the rejection path. -/
theorem promise_tap_rejection_unpaired {ε ρ : Type} (name : String) (d : Nat)
    (e : ε) (t : Tracer) :
    runPromiseTap name (⟨d, Except.error e⟩ : PromiseFn ε ρ) t =
      (Except.error e,
        { counter := t.counter + 1, clock := t.clock + (d : Int),
          log := t.log ++
            [{ name := name, id := t.counter + 1, cat := defaultCategory,
               ph := .b, ts := t.clock, dur := none, args := .empty }] }) := by
  rfl

/-- Claim C7 counterexample: instrumenting one synchronous hook named
`"build"` whose underlying callable returns 42, on the tracer produced by
`createTrace`, yields exactly one begin event named `"build"` and it carries
id 3 — not id 1 as the claim demands: no event named `"build"` with id 1
exists in the log (ids 1 and 2 were consumed by the two bootstrap events). -/
theorem sync_build_id_counterexample :
    ((runSyncTap "build" (fun (_ : Unit) => (Except.ok 42 : Except Unit Nat)) () createTrace).2.log.countP
      (fun ev => decide (ev.name = "build" ∧ ev.id = 1))) = 0 ∧
    ((runSyncTap "build" (fun (_ : Unit) => (Except.ok 42 : Except Unit Nat)) () createTrace).2.log.countP
      (fun ev => decide (ev.name = "build" ∧ ev.ph = Phase.b))) = 1 ∧
    ((runSyncTap "build" (fun (_ : Unit) => (Except.ok 42 : Except Unit Nat)) () createTrace).2.log.countP
      (fun ev => decide (ev.name = "build" ∧ ev.ph = Phase.b ∧ ev.id = 3))) = 1 :=
  ⟨by decide, by decide, by decide⟩

/-- Claim C5 counterexample: with the inspector available but every
`session.post` reporting an error, `stopProfiling()` rejects, the `"done"`
handler's `then` continuation never runs, and `destroy()` is called zero
times — not exactly once as the claim demands. -/
theorem destroy_skipped_on_stop_rejection :
    (doneFinalize createTrace ⟨true, fun _ => Except.error ()⟩
        (Profiler.startProfiling ⟨true, fun _ => Except.error ()⟩).1).destroyCalls
      ≠ 1 := by
  decide

/-- Claim C5 amended: `destroy()` is called exactly once from finalization
whenever `stopProfiling()` resolves — with a profile, with a null result, or
when no session was ever meaningfully started — but when `stopProfiling()`
rejects (its underlying post call reported an error), the `then` continuation
is skipped and `destroy()` is never called. -/
theorem destroy_iff_stop_resolves (t : Tracer) (host : Host) (p : Profiler) :
    (doneFinalize t host p).destroyCalls =
      if exceptOk (p.stopProfiling host) then 1 else 0 := by
  unfold doneFinalize exceptOk
  cases p.stopProfiling host with
  | error e => rfl
  | ok v => cases v <;> rfl

/-- Claim C6: when finalization receives a completed sample with
`startTime = 1000` and `endTime = 5000`, it appends, in this relative order,
the `toplevel` container complete event at `ts = 1000`, the `EvaluateScript`
complete event with `ts = 1000` and `dur = 4000`, and the `CpuProfile`
instant event at `ts = 5000` whose `args` carry the full profile payload. -/
theorem finalize_merge_events :
    (doneFinalize createTrace
        ⟨true, fun _ => Except.ok (some ⟨⟨1000, 5000⟩⟩)⟩
        { session := some () }).tracer.log =
      createTrace.log ++
        [{ name := "TaskQueueManager::ProcessTaskFromWorkQueue", id := 3,
           cat := ["toplevel"], ph := .X, ts := 1000, dur := none,
           args := .srcLocation "../../ipc/ipc_moji_bootstrap.cc" "Accept" },
         { name := "EvaluateScript", id := 4, cat := ["devtools.timeline"],
           ph := .X, ts := 1000, dur := some 4000,
           args := .scriptData "webpack" 1 1 "0xFFF" },
         { name := "CpuProfile", id := 5,
           cat := ["disabled-by-default-devtools.timeline"], ph := .I,
           ts := 5000, dur := none, args := .cpuProfile ⟨1000, 5000⟩ }] := by
  rfl

/-- Claim C8: when the host environment lacks the sampling primitive,
`startProfiling()` creates no session and resolves successfully, and
finalization leaves the trace log exactly as the hooks and bootstrap events
built it (none of the three profile-merge events is appended) while still
flushing it once. -/
theorem graceful_degradation_without_inspector (host : Host) (t : Tracer)
    (h : host.inspectorAvailable = false) :
    (Profiler.startProfiling host).2 = Except.ok () ∧
    (Profiler.startProfiling host).1.session = none ∧
    doneFinalize t host (Profiler.startProfiling host).1 =
      { tracer := t, destroyCalls := 1, flushCalls := 1 } := by
  unfold Profiler.startProfiling
  rw [h]
  exact ⟨rfl, rfl, rfl⟩

/-- Claim C8 witness: the no-inspector guarantee instantiated with a concrete
host and the tracer produced by `createTrace`. -/
theorem graceful_degradation_without_inspector_witness :
    (Profiler.startProfiling ⟨false, fun _ => Except.ok none⟩).2 = Except.ok () ∧
    (Profiler.startProfiling ⟨false, fun _ => Except.ok none⟩).1.session = none ∧
    doneFinalize createTrace ⟨false, fun _ => Except.ok none⟩
        (Profiler.startProfiling ⟨false, fun _ => Except.ok none⟩).1 =
      { tracer := createTrace, destroyCalls := 1, flushCalls := 1 } :=
  graceful_degradation_without_inspector ⟨false, fun _ => Except.ok none⟩
    createTrace rfl

/-- Claim C10 counterexample: for a tap descriptor whose type tag is
`"weird"` (none of the three enumerated variants), `register` neither fails
fast nor passes the original callable through: it returns normally and
replaces the working callable `7` with `fn := none` (the `undefined` the
source's fallen-through switch returns), an unusable registration. -/
theorem register_unknown_type_counterexample :
    register "someHook" { name := "myPlugin", type := "weird", fn := (7 : Nat) } =
      { name := "myPlugin", type := "weird", fn := none } := by
  rfl

/-- Claim C10 amended: for a tap descriptor whose type tag is none of the
three enumerated variants, `makeNewProfiledTapFn` returns `undefined`
(`none`), and the register step installs that `undefined` in place of the
original callable — it does replace a working callable with an unusable one
rather than failing fast or passing it through. -/
theorem register_unknown_type_yields_undef {F : Type} (hookName : String)
    (tap : Tap F) (h1 : tap.type ≠ "promise") (h2 : tap.type ≠ "async")
    (h3 : tap.type ≠ "sync") :
    makeNewProfiledTapFn hookName tap = none ∧
    (register hookName tap).fn = none := by
  unfold register makeNewProfiledTapFn
  rw [if_neg h1, if_neg h2, if_neg h3]
  exact ⟨rfl, rfl⟩

/-- Claim C10 amended witness: the unknown-tag behaviour instantiated at a
concrete tap descriptor with type `"weird"`. -/
theorem register_unknown_type_yields_undef_witness :
    makeNewProfiledTapFn "someHook"
        { name := "myPlugin", type := "weird", fn := (7 : Nat) } = none ∧
    (register "someHook"
        { name := "myPlugin", type := "weird", fn := (7 : Nat) }).fn = none :=
  register_unknown_type_yields_undef "someHook"
    { name := "myPlugin", type := "weird", fn := (7 : Nat) }
    (by decide) (by decide) (by decide)

/-- Claim C7 amended: instrumenting one synchronous hook named `"build"`
whose underlying callable returns 42 and invoking it once on the tracer
produced by `createTrace` produces, in order, a begin event
`{name := "build", id := 3}`, the uncorrupted return value 42 to the caller,
and an end event `{name := "build", id := 3}` — the id is 3 rather than 1
because the two bootstrap events of `createTrace` consume ids 1 and 2 from
the same shared counter. -/
theorem sync_build_run :
    runSyncTap "build" (fun (_ : Unit) => (Except.ok 42 : Except Unit Nat)) () createTrace =
      (Except.ok 42,
        { counter := 3, clock := 0,
          log := createTrace.log ++
            [{ name := "build", id := 3, cat := defaultCategory, ph := .b,
               ts := 0, dur := none, args := .empty },
             { name := "build", id := 3, cat := defaultCategory, ph := .e,
               ts := 0, dur := none, args := .empty }] }) := by
  rfl

theorem allocIdsOf_append (log : List TraceEvent) (ev : TraceEvent) :
    allocIdsOf (log ++ [ev]) =
      allocIdsOf log ++ if isAllocEvent ev then [ev.id] else [] := by
  unfold allocIdsOf
  rw [List.filter_append]
  cases h : isAllocEvent ev <;> simp [h]

theorem pairwise_lt_concat {l : List Nat} {a : Nat}
    (h : List.Pairwise (fun x y => x < y) l) (ha : ∀ x ∈ l, x < a) :
    List.Pairwise (fun x y => x < y) (l ++ [a]) := by
  rw [List.pairwise_append]
  refine ⟨h, by simp, ?_⟩
  intro x hx b hb
  rw [List.mem_singleton] at hb
  subst hb
  exact ha x hx

theorem schedStep_inv (s : SchedState) (st : SchedStep) (h : SchedInv s) :
    SchedInv (schedStep s st) := by
  obtain ⟨hp, hb⟩ := h
  cases st with
  | beginHook name =>
    unfold SchedInv
    simp only [schedStep, traceBegin, Tracer.emit, Tracer.allocId,
      allocIdsOf_append, isAllocEvent, if_true]
    constructor
    · exact pairwise_lt_concat hp (fun x hx => Nat.lt_succ_of_le (hb x hx))
    · intro i hi
      rcases List.mem_append.mp hi with hi | hi
      · exact Nat.le_succ_of_le (hb i hi)
      · rw [List.mem_singleton] at hi
        subst hi
        exact Nat.le_refl _
  | endHook name k =>
    unfold SchedInv
    simp only [schedStep, traceEnd, Tracer.emit, allocIdsOf_append,
      isAllocEvent, Bool.false_eq_true, if_false, List.append_nil]
    exact ⟨hp, hb⟩
  | allocInstant name =>
    unfold SchedInv
    simp only [schedStep, Tracer.emit, Tracer.allocId, allocIdsOf_append,
      isAllocEvent, if_true]
    constructor
    · exact pairwise_lt_concat hp (fun x hx => Nat.lt_succ_of_le (hb x hx))
    · intro i hi
      rcases List.mem_append.mp hi with hi | hi
      · exact Nat.le_succ_of_le (hb i hi)
      · rw [List.mem_singleton] at hi
        subst hi
        exact Nat.le_refl _
  | tick d =>
    exact ⟨hp, hb⟩

theorem runSched_inv (steps : List SchedStep) (s : SchedState)
    (h : SchedInv s) : SchedInv (runSched steps s) := by
  induction steps generalizing s with
  | nil => exact h
  | cons st rest ih => exact ih (schedStep s st) (schedStep_inv s st h)

/-- Claim C4: across a full run starting from `createTrace` — the two
bootstrap events already emitted — and continuing with any interleaving of
hook begins (all three calling conventions share the same
`++tracer.counter`-then-`begin` prefix), hook ends, counter-allocating
instant/complete emissions (the finalize merge events), and clock advances,
the ids drawn from the single shared counter (the ids of all non-end events,
each begin/end pair counted once through its begin) form a strictly
increasing sequence in log order, hence every such id is globally unique and
never reused, including across interleaved asynchronous operations. -/
theorem event_ids_strictly_increasing (steps : List SchedStep) :
    List.Pairwise (fun x y => x < y)
      (allocIdsOf
        (runSched steps { tracer := createTrace, pendingIds := [] }).tracer.log) ∧
    (allocIdsOf
        (runSched steps { tracer := createTrace, pendingIds := [] }).tracer.log).Nodup := by
  have h0 : SchedInv { tracer := createTrace, pendingIds := [] } :=
    ⟨by decide, by decide⟩
  have h := runSched_inv steps _ h0
  exact ⟨h.1, h.1.imp (fun hab => Nat.ne_of_lt hab)⟩
